import Mathlib

/-!
Verification of the ip-sonar-go client library.

The repository is a generated Go client for an IP-geolocation HTTP API.
The generated client source (`apiclient.gen.go`) is not part of the
checkout; only its tests (`apiclient_test.go`) and the example program
are.  The definitions below therefore model the client from the
specification (and the shapes the tests exercise): JSON bodies are
modelled as an abstract syntax tree, optional Go pointer fields as
`Option`, fallible Go functions as `Except`, and the HTTP transport as
an explicit function argument.
-/

namespace IpSonar

/-- Modelled from the spec: JSON values, as produced and consumed by the
wire protocol.  Numbers are carried exactly; Go round-trips float32 and
int32 values exactly through their shortest decimal encodings, so an
exact rational carrier is faithful for the properties considered here. -/
inductive Json where
  | null : Json
  | bool (b : Bool) : Json
  | num (q : Rat) : Json
  | str (s : String) : Json
  | arr (elems : List Json) : Json
  | obj (fields : List (String × Json)) : Json
deriving Repr

/-- Modelled from the spec: the raw bytes of a response body.  A body is
either valid JSON text (carried as its parse tree) or malformed text; the
parsing layer's JSON-decode step fails exactly on the latter. -/
inductive RawBody where
  | json (j : Json) : RawBody
  | malformed (bytes : String) : RawBody
deriving Repr

/-- Attempt to read a raw body as JSON (models json.Unmarshal's
syntactic stage). -/
def RawBody.parseJson : RawBody → Option Json
  | .json j => some j
  | .malformed _ => none

/-- Modelled from the spec: one geolocation query result.  Every field is
independently optional (a Go pointer field, nil meaning absent). -/
structure IPGeolocation where
  IP : Option String := none
  CountryCode : Option String := none
  CountryName : Option String := none
  CityName : Option String := none
  ContinentCode : Option String := none
  ContinentName : Option String := none
  Latitude : Option Rat := none
  Longitude : Option Rat := none
  Timezone : Option String := none
  PostalCode : Option String := none
  AccuracyRadius : Option Int := none
  IsInEu : Option Bool := none
  Subdivision1Code : Option String := none
  Subdivision1Name : Option String := none
  Subdivision2Code : Option String := none
  Subdivision2Name : Option String := none
deriving DecidableEq, Repr

/-- Modelled from the spec: the error body of a non-2xx JSON response, a
single human-readable message string (a required Go string field, so a
missing key decodes to the empty string). -/
structure Error where
  Message : String
deriving DecidableEq, Repr

/-- Modelled from the spec: the batch-result envelope, a sequence of
geolocation entities in request order. -/
structure BatchLookupIPResponse where
  Data : List IPGeolocation
deriving DecidableEq, Repr

/-- Look a key up in a JSON object's field list (first occurrence). -/
def lookupKey (fields : List (String × Json)) (k : String) : Option Json :=
  (fields.find? (fun p => p.1 == k)).map (fun p => p.2)

/-- One marshalled field: emitted only when the Go pointer is non-nil
(the generated struct tags carry omitempty). -/
def optField {α : Type} (k : String) (mk : α → Json) : Option α → List (String × Json)
  | none => []
  | some v => [(k, mk v)]

/-- The field list Go's json.Marshal emits for an IPGeolocation value:
fields in declaration order, nil pointers omitted. -/
def marshalFields (g : IPGeolocation) : List (String × Json) :=
  optField "ip" .str g.IP
    ++ optField "country_code" .str g.CountryCode
    ++ optField "country_name" .str g.CountryName
    ++ optField "city_name" .str g.CityName
    ++ optField "continent_code" .str g.ContinentCode
    ++ optField "continent_name" .str g.ContinentName
    ++ optField "latitude" .num g.Latitude
    ++ optField "longitude" .num g.Longitude
    ++ optField "timezone" .str g.Timezone
    ++ optField "postal_code" .str g.PostalCode
    ++ optField "accuracy_radius" (fun n : Int => .num (n : Rat)) g.AccuracyRadius
    ++ optField "is_in_eu" .bool g.IsInEu
    ++ optField "subdivision_1_code" .str g.Subdivision1Code
    ++ optField "subdivision_1_name" .str g.Subdivision1Name
    ++ optField "subdivision_2_code" .str g.Subdivision2Code
    ++ optField "subdivision_2_name" .str g.Subdivision2Name

/-- Modelled from the spec: Go's json.Marshal on an IPGeolocation
value. -/
def marshalIPGeolocation (g : IPGeolocation) : Json :=
  .obj (marshalFields g)

/-- Read a JSON value as a string. -/
def asStr : Json → Option String
  | .str s => some s
  | _ => none

/-- Read a JSON value as an exact number. -/
def asNum : Json → Option Rat
  | .num q => some q
  | _ => none

/-- Read a JSON value as an integer (Go rejects a fractional number for
an int32 destination). -/
def asInt : Json → Option Int
  | .num q => if q.den = 1 then some q.num else none
  | _ => none

/-- Read a JSON value as a boolean. -/
def asBool : Json → Option Bool
  | .bool b => some b
  | _ => none

/-- Decode one optional (pointer) field: a missing key or a JSON null
leaves the pointer nil; a present value of the wrong shape is a decode
error (outer `none`). -/
def decodeField {α : Type} (rd : Json → Option α)
    (fields : List (String × Json)) (k : String) : Option (Option α) :=
  match lookupKey fields k with
  | none => some none
  | some .null => some none
  | some j => (rd j).map some

/-- Modelled from the spec: Go's json.Unmarshal into an IPGeolocation
value.  A non-object body or a field of the wrong shape is an error;
absent fields stay nil. -/
def decodeIPGeolocation : Json → Option IPGeolocation
  | .obj fields => do
      let ip ← decodeField asStr fields "ip"
      let cc ← decodeField asStr fields "country_code"
      let cn ← decodeField asStr fields "country_name"
      let city ← decodeField asStr fields "city_name"
      let contC ← decodeField asStr fields "continent_code"
      let contN ← decodeField asStr fields "continent_name"
      let lat ← decodeField asNum fields "latitude"
      let lon ← decodeField asNum fields "longitude"
      let tz ← decodeField asStr fields "timezone"
      let postal ← decodeField asStr fields "postal_code"
      let acc ← decodeField asInt fields "accuracy_radius"
      let eu ← decodeField asBool fields "is_in_eu"
      let s1c ← decodeField asStr fields "subdivision_1_code"
      let s1n ← decodeField asStr fields "subdivision_1_name"
      let s2c ← decodeField asStr fields "subdivision_2_code"
      let s2n ← decodeField asStr fields "subdivision_2_name"
      pure { IP := ip, CountryCode := cc, CountryName := cn, CityName := city,
             ContinentCode := contC, ContinentName := contN,
             Latitude := lat, Longitude := lon, Timezone := tz,
             PostalCode := postal, AccuracyRadius := acc, IsInEu := eu,
             Subdivision1Code := s1c, Subdivision1Name := s1n,
             Subdivision2Code := s2c, Subdivision2Name := s2n }
  | _ => none

/-- Modelled from the spec: Go's json.Unmarshal into the error body.  The
message is a required (non-pointer) Go string, so a missing key or a JSON
null leaves the zero value, the empty string. -/
def decodeError : Json → Option Error
  | .obj fields =>
      match lookupKey fields "message" with
      | none => some { Message := "" }
      | some (.str s) => some { Message := s }
      | some .null => some { Message := "" }
      | some _ => none
  | _ => none

/-- Decode every element of a JSON array as a geolocation, in order; any
element of the wrong shape fails the whole decode. -/
def decodeGeoList : List Json → Option (List IPGeolocation)
  | [] => some []
  | j :: rest =>
      match decodeIPGeolocation j, decodeGeoList rest with
      | some g, some gs => some (g :: gs)
      | _, _ => none

/-- Modelled from the spec: Go's json.Unmarshal into the batch envelope.
The data field is a required slice; a missing key or null leaves it
empty, and each element decodes as a geolocation. -/
def decodeBatch : Json → Option BatchLookupIPResponse
  | .obj fields =>
      match lookupKey fields "data" with
      | none => some { Data := [] }
      | some .null => some { Data := [] }
      | some (.arr js) => (decodeGeoList js).map (fun gs => { Data := gs })
      | some _ => none
  | _ => none

/-- Modelled from the spec: optional query modifiers of the single-IP
lookup (a comma-joined field-selector string and a locale code), each an
optional Go pointer. -/
structure LookupParams where
  Fields : Option String := none
  LocaleCode : Option String := none
deriving DecidableEq, Repr

/-- Modelled from the spec: optional query modifiers of the self-IP
lookup; same shape as the single-lookup params. -/
structure LookupMyParams where
  Fields : Option String := none
  LocaleCode : Option String := none
deriving DecidableEq, Repr

/-- Modelled from the spec: optional query modifiers of the batch
lookup; same shape as the single-lookup params. -/
structure BatchLookupParams where
  Fields : Option String := none
  LocaleCode : Option String := none
deriving DecidableEq, Repr

/-- Modelled from the spec: the batch request body, an ordered sequence
of IP-address strings. -/
structure BatchLookupJSONRequestBody where
  Data : List String
deriving DecidableEq, Repr

/-- UTF-8 bytes of a character, computed arithmetically. -/
def utf8Bytes (c : Char) : List Nat :=
  let n := c.toNat
  if n < 0x80 then [n]
  else if n < 0x800 then
    [0xC0 + n / 64, 0x80 + n % 64]
  else if n < 0x10000 then
    [0xE0 + n / 4096, 0x80 + n / 64 % 64, 0x80 + n % 64]
  else
    [0xF0 + n / 262144, 0x80 + n / 4096 % 64, 0x80 + n / 64 % 64, 0x80 + n % 64]

/-- Upper-case hexadecimal digit of a value below 16. -/
def hexDigit (n : Nat) : Char :=
  if n < 10 then Char.ofNat (48 + n) else Char.ofNat (55 + n)

/-- Characters kept verbatim by the path escaper. -/
def isUnreservedChar (c : Char) : Bool :=
  c.isAlphanum || c = '-' || c = '.' || c = '_' || c = '~'

/-- Modelled from the spec: percent-encoding of a path parameter (the
queried IP address); bytes outside the unreserved set become %XX. -/
def percentEncode (s : String) : String :=
  String.mk (s.data.flatMap (fun c =>
    if isUnreservedChar c then [c]
    else (utf8Bytes c).flatMap (fun b => ['%', hexDigit (b / 16), hexDigit (b % 16)])))

/-- Modelled from the spec: an outbound HTTP request as the client
prepares it — method, target URL, query parameters, headers and an
optional JSON body. -/
structure Request where
  method : String
  url : String
  queryParams : List (String × String)
  headers : List (String × String)
  body : Option Json
deriving Repr

/-- Modelled from the spec: an inbound HTTP response — status code and
text, its content-type header, and a body stream whose read may fail. -/
structure HttpResponse where
  statusCode : Nat
  status : String
  contentType : String
  body : Except String RawBody

/-- A request-editor hook: a fallible transform over an outbound
request. -/
def RequestEditorFn : Type := Request → Except String Request

/-- The transport abstraction: execute a prepared request and return a
raw response or a transport-level failure. -/
def HttpRequestDoer : Type := Request → Except String HttpResponse

/-- Modelled from the spec: the base client — a base server URL
(normalized to end with a path separator), a transport, and an ordered
list of request-editor hooks.  The transport field is called Client in
the Go struct; Lean cannot reuse the enclosing type's name for a field,
so it is HTTPClient here. -/
structure Client where
  Server : String
  HTTPClient : Option HttpRequestDoer
  RequestEditors : List RequestEditorFn

/-- A configuration option: a fallible mutator of client state. -/
def ClientOption : Type := Client → Except String Client

/-- Modelled from the spec: structural validity of a base URL; Go's URL
parser rejects a URL containing ASCII control characters. -/
def isValidURL (s : String) : Bool :=
  s.data.all (fun c => 0x20 ≤ c.toNat)

/-- Whether a URL string already ends with the path separator
(models a trailing-slash suffix test). -/
def endsWithSlash (s : String) : Bool :=
  s.data.getLast? = some '/'

/-- Apply configuration options in order, stopping at the first
failure. -/
def applyOpts : List ClientOption → Client → Except String Client
  | [], c => .ok c
  | o :: rest, c =>
      match o c with
      | .error e => .error e
      | .ok c' => applyOpts rest c'

/-- Modelled from the spec: a placeholder for the default HTTP stack
installed when no transport option was given; its behaviour is outside
this model, so it fails every request. -/
def defaultTransport : HttpRequestDoer :=
  fun _ => .error "network unavailable in model"

/-- Modelled from the spec: client construction — validate the server
URL, apply the options in order (any failure aborts construction), then
normalize the stored URL to end with a path separator and install the
default transport when none was configured. -/
def NewClient (server : String) (opts : List ClientOption) : Except String Client :=
  if isValidURL server then
    match applyOpts opts { Server := server, HTTPClient := none, RequestEditors := [] } with
    | .error e => .error e
    | .ok c =>
        let c1 : Client :=
          if endsWithSlash c.Server then c else { c with Server := c.Server ++ "/" }
        let c2 : Client :=
          match c1.HTTPClient with
          | some _ => c1
          | none => { c1 with HTTPClient := some defaultTransport }
        .ok c2
  else .error "invalid server URL"

/-- Modelled from the spec: the option that overrides the transport
implementation. -/
def WithHTTPClient (doer : HttpRequestDoer) : ClientOption :=
  fun c => .ok { c with HTTPClient := some doer }

/-- Modelled from the spec: the option that overrides the effective base
URL; the new URL is re-validated. -/
def WithBaseURL (baseURL : String) : ClientOption :=
  fun c =>
    if isValidURL baseURL then .ok { c with Server := baseURL }
    else .error "invalid base URL"

/-- Modelled from the spec: the option that appends a request-editor
hook to the ordered hook list. -/
def WithRequestEditorFn (f : RequestEditorFn) : ClientOption :=
  fun c => .ok { c with RequestEditors := c.RequestEditors ++ [f] }

/-- Query parameters contributed by the optional single-lookup params
object: a nil params pointer contributes none, and each present field
contributes one key. -/
def lookupQueryParams (params : Option LookupParams) : List (String × String) :=
  match params with
  | none => []
  | some p =>
      (match p.Fields with | none => [] | some f => [("fields", f)])
        ++ (match p.LocaleCode with | none => [] | some l => [("locale_code", l)])

/-- Query parameters contributed by the optional self-lookup params
object. -/
def lookupMyQueryParams (params : Option LookupMyParams) : List (String × String) :=
  match params with
  | none => []
  | some p =>
      (match p.Fields with | none => [] | some f => [("fields", f)])
        ++ (match p.LocaleCode with | none => [] | some l => [("locale_code", l)])

/-- Query parameters contributed by the optional batch-lookup params
object. -/
def batchQueryParams (params : Option BatchLookupParams) : List (String × String) :=
  match params with
  | none => []
  | some p =>
      (match p.Fields with | none => [] | some f => [("fields", f)])
        ++ (match p.LocaleCode with | none => [] | some l => [("locale_code", l)])

/-- Modelled from the spec: build the single-lookup request — GET, the
base URL joined with the percent-encoded IP path parameter, query
parameters from the params object, no body. -/
def NewLookupRequest (server ip : String) (params : Option LookupParams) : Request :=
  { method := "GET"
    url := server ++ percentEncode ip
    queryParams := lookupQueryParams params
    headers := []
    body := none }

/-- Modelled from the spec: build the self-lookup request — GET, the base
URL joined with the operation's fixed path segment, no path parameter. -/
def NewLookupMyRequest (server : String) (params : Option LookupMyParams) : Request :=
  { method := "GET"
    url := server ++ "my"
    queryParams := lookupMyQueryParams params
    headers := []
    body := none }

/-- Modelled from the spec: build the batch-lookup request — POST, fixed
path segment, JSON body holding the submitted IP list, and the matching
content-type header. -/
def NewBatchLookupRequest (server : String) (params : Option BatchLookupParams)
    (body : BatchLookupJSONRequestBody) : Request :=
  { method := "POST"
    url := server ++ "batch"
    queryParams := batchQueryParams params
    headers := [("Content-Type", "application/json")]
    body := some (.obj [("data", .arr (body.Data.map .str))]) }

/-- Apply the registered request-editor hooks in registration order,
stopping at the first failure. -/
def applyEditors : List RequestEditorFn → Request → Except String Request
  | [], r => .ok r
  | e :: rest, r =>
      match e r with
      | .error err => .error err
      | .ok r' => applyEditors rest r'

/-- Modelled from the spec: run the editor hooks over a prepared request
and, when all succeed, dispatch it through the client's transport. -/
def Client.doRequest (c : Client) (req : Request) : Except String HttpResponse :=
  match applyEditors c.RequestEditors req with
  | .error e => .error e
  | .ok r =>
      match c.HTTPClient with
      | some doer => doer r
      | none => .error "no transport configured"

/-- Modelled from the spec: the single-IP lookup operation of the base
client; returns the raw response or the propagated error. -/
def Client.Lookup (c : Client) (ip : String) (params : Option LookupParams) :
    Except String HttpResponse :=
  c.doRequest (NewLookupRequest c.Server ip params)

/-- Modelled from the spec: the self-IP lookup operation of the base
client. -/
def Client.LookupMy (c : Client) (params : Option LookupMyParams) :
    Except String HttpResponse :=
  c.doRequest (NewLookupMyRequest c.Server params)

/-- Modelled from the spec: the batch lookup operation of the base
client. -/
def Client.BatchLookup (c : Client) (params : Option BatchLookupParams)
    (body : BatchLookupJSONRequestBody) : Except String HttpResponse :=
  c.doRequest (NewBatchLookupRequest c.Server params body)

/-- Modelled from the spec: the typed result of the single-lookup (and
self-lookup) operations — the raw body and status plus mutually
exclusive optional decoded bodies for the status codes this operation
special-cases: 200, 401, 404, 429 (500 is not special-cased here). -/
structure LookupResponse where
  Body : RawBody
  StatusCode : Nat
  Status : String
  JSON200 : Option IPGeolocation
  JSON401 : Option Error
  JSON404 : Option Error
  JSON429 : Option Error

/-- Modelled from the spec: the typed result of the batch-lookup
operation — raw body and status plus optional decoded bodies for 200,
401, 422, 429 and 500 (404 is not special-cased here). -/
structure BatchLookupResponse where
  Body : RawBody
  StatusCode : Nat
  Status : String
  JSON200 : Option BatchLookupIPResponse
  JSON401 : Option Error
  JSON422 : Option Error
  JSON429 : Option Error
  JSON500 : Option Error

/-- Naive substring test, modelling a contains check on the
content-type header value. -/
def strContains (s pat : String) : Bool :=
  (List.range (s.length + 1)).any (fun i => pat.data.isPrefixOf (s.data.drop i))

/-- Whether a content-type header declares a JSON body. -/
def isJsonContentType (ct : String) : Bool :=
  strContains ct "json"

/-- Modelled from the spec: parse a raw single-lookup (or self-lookup)
response.  Read the whole body (a read failure propagates), keep the raw
bytes and status, then branch on content type and status code: 200
decodes a geolocation, 401/404/429 decode the error body, anything else
leaves every typed field unset.  A decode failure on a body this
operation attempts to parse is an error; no status code is an error by
itself. -/
def ParseLookupResponse (rsp : HttpResponse) : Except String LookupResponse :=
  match rsp.body with
  | .error e => .error e
  | .ok bodyBytes =>
      let base : LookupResponse :=
        { Body := bodyBytes, StatusCode := rsp.statusCode, Status := rsp.status,
          JSON200 := none, JSON401 := none, JSON404 := none, JSON429 := none }
      if isJsonContentType rsp.contentType && rsp.statusCode == 200 then
        match bodyBytes.parseJson >>= decodeIPGeolocation with
        | none => .error "json decode failure"
        | some g => .ok { base with JSON200 := some g }
      else if isJsonContentType rsp.contentType && rsp.statusCode == 401 then
        match bodyBytes.parseJson >>= decodeError with
        | none => .error "json decode failure"
        | some e => .ok { base with JSON401 := some e }
      else if isJsonContentType rsp.contentType && rsp.statusCode == 404 then
        match bodyBytes.parseJson >>= decodeError with
        | none => .error "json decode failure"
        | some e => .ok { base with JSON404 := some e }
      else if isJsonContentType rsp.contentType && rsp.statusCode == 429 then
        match bodyBytes.parseJson >>= decodeError with
        | none => .error "json decode failure"
        | some e => .ok { base with JSON429 := some e }
      else .ok base

/-- Modelled from the spec: parse a raw batch-lookup response; same
scheme as the single lookup, but the special-cased status codes are 200,
401, 422, 429 and 500. -/
def ParseBatchLookupResponse (rsp : HttpResponse) : Except String BatchLookupResponse :=
  match rsp.body with
  | .error e => .error e
  | .ok bodyBytes =>
      let base : BatchLookupResponse :=
        { Body := bodyBytes, StatusCode := rsp.statusCode, Status := rsp.status,
          JSON200 := none, JSON401 := none, JSON422 := none,
          JSON429 := none, JSON500 := none }
      if isJsonContentType rsp.contentType && rsp.statusCode == 200 then
        match bodyBytes.parseJson >>= decodeBatch with
        | none => .error "json decode failure"
        | some b => .ok { base with JSON200 := some b }
      else if isJsonContentType rsp.contentType && rsp.statusCode == 401 then
        match bodyBytes.parseJson >>= decodeError with
        | none => .error "json decode failure"
        | some e => .ok { base with JSON401 := some e }
      else if isJsonContentType rsp.contentType && rsp.statusCode == 422 then
        match bodyBytes.parseJson >>= decodeError with
        | none => .error "json decode failure"
        | some e => .ok { base with JSON422 := some e }
      else if isJsonContentType rsp.contentType && rsp.statusCode == 429 then
        match bodyBytes.parseJson >>= decodeError with
        | none => .error "json decode failure"
        | some e => .ok { base with JSON429 := some e }
      else if isJsonContentType rsp.contentType && rsp.statusCode == 500 then
        match bodyBytes.parseJson >>= decodeError with
        | none => .error "json decode failure"
        | some e => .ok { base with JSON500 := some e }
      else .ok base

/-- Modelled from the spec: the typed single-lookup operation — run the
base-client operation, then parse; a transport (or hook) error
propagates unchanged. -/
def Client.LookupWithResponse (c : Client) (ip : String)
    (params : Option LookupParams) : Except String LookupResponse :=
  match c.Lookup ip params with
  | .error e => .error e
  | .ok rsp => ParseLookupResponse rsp

/-- Modelled from the spec: the typed self-lookup operation. -/
def Client.LookupMyWithResponse (c : Client) (params : Option LookupMyParams) :
    Except String LookupResponse :=
  match c.LookupMy params with
  | .error e => .error e
  | .ok rsp => ParseLookupResponse rsp

/-- Modelled from the spec: the typed batch-lookup operation. -/
def Client.BatchLookupWithResponse (c : Client) (params : Option BatchLookupParams)
    (body : BatchLookupJSONRequestBody) : Except String BatchLookupResponse :=
  match c.BatchLookup params body with
  | .error e => .error e
  | .ok rsp => ParseBatchLookupResponse rsp

/-- The condition under which the single-lookup parsing layer attempts a
JSON decode and that decode fails: a JSON content type together with a
body that does not decode under the decoder keyed by the status code. -/
def lookupDecodeFails (st : Nat) (ct : String) (b : RawBody) : Bool :=
  isJsonContentType ct &&
    ((st == 200 && (b.parseJson >>= decodeIPGeolocation).isNone)
      || ((st == 401 || st == 404 || st == 429) && (b.parseJson >>= decodeError).isNone))

/-- The batch-lookup analogue of the decode-failure condition. -/
def batchDecodeFails (st : Nat) (ct : String) (b : RawBody) : Bool :=
  isJsonContentType ct &&
    ((st == 200 && (b.parseJson >>= decodeBatch).isNone)
      || ((st == 401 || st == 422 || st == 429 || st == 500)
            && (b.parseJson >>= decodeError).isNone))

/-- How many of the typed optional fields of a single-lookup result are
set. -/
def LookupResponse.setCount (r : LookupResponse) : Nat :=
  r.JSON200.elim 0 (fun _ => 1) + r.JSON401.elim 0 (fun _ => 1)
    + r.JSON404.elim 0 (fun _ => 1) + r.JSON429.elim 0 (fun _ => 1)

/-- How many of the typed optional fields of a batch-lookup result are
set. -/
def BatchLookupResponse.setCount (r : BatchLookupResponse) : Nat :=
  r.JSON200.elim 0 (fun _ => 1) + r.JSON401.elim 0 (fun _ => 1)
    + r.JSON422.elim 0 (fun _ => 1) + r.JSON429.elim 0 (fun _ => 1)
    + r.JSON500.elim 0 (fun _ => 1)

/-- The JSON error body of the upstream API: an object with a single
message string. -/
def errorBody (msg : String) : RawBody :=
  .json (.obj [("message", .str msg)])

/-- A canned successful response used to exercise the theorems on
concrete inputs. -/
def sampleResponse : HttpResponse :=
  { statusCode := 200, status := "200 OK", contentType := "application/json",
    body := .ok (.json .null) }

/-- A request editor that adds a custom header (as in the repository's
editor test). -/
def addHeaderEditor : RequestEditorFn :=
  fun r => .ok { r with headers := r.headers ++ [("Custom-Header", "test-value")] }

/-- A request editor that passes the request through unchanged. -/
def idEditor : RequestEditorFn :=
  fun r => .ok r

/-- A transport double that returns the canned response for every
request. -/
def constTransport : HttpRequestDoer :=
  fun _ => .ok sampleResponse

theorem lookupKey_append (xs ys : List (String × Json)) (k : String) :
    lookupKey (xs ++ ys) k = (lookupKey xs k).or (lookupKey ys k) := by
  unfold lookupKey
  rw [List.find?_append]
  cases List.find? (fun p => p.1 == k) xs <;> rfl

theorem lookupKey_optField_same {α : Type} (k : String) (mk : α → Json) (v : Option α) :
    lookupKey (optField k mk v) k = v.map mk := by
  cases v <;> simp [lookupKey, optField, List.find?]

theorem lookupKey_optField_ne {α : Type} (k k' : String) (mk : α → Json) (v : Option α)
    (h : (k' == k) = false) : lookupKey (optField k' mk v) k = none := by
  cases v <;> simp [lookupKey, optField, List.find?, h]

theorem decodeField_str_eq (flds : List (String × Json)) (k : String) (v : Option String)
    (h : lookupKey flds k = v.map Json.str) : decodeField asStr flds k = some v := by
  cases v with
  | none => simp only [Option.map_none'] at h; simp [decodeField, h]
  | some s => simp only [Option.map_some'] at h; simp [decodeField, h, asStr]

theorem decodeField_num_eq (flds : List (String × Json)) (k : String) (v : Option Rat)
    (h : lookupKey flds k = v.map Json.num) : decodeField asNum flds k = some v := by
  cases v with
  | none => simp only [Option.map_none'] at h; simp [decodeField, h]
  | some q => simp only [Option.map_some'] at h; simp [decodeField, h, asNum]

theorem decodeField_int_eq (flds : List (String × Json)) (k : String) (v : Option Int)
    (h : lookupKey flds k = v.map (fun n : Int => Json.num (n : Rat))) :
    decodeField asInt flds k = some v := by
  cases v with
  | none => simp only [Option.map_none'] at h; simp [decodeField, h]
  | some n =>
      simp only [Option.map_some'] at h
      simp [decodeField, h, asInt, Rat.den_intCast, Rat.num_intCast]

theorem decodeField_bool_eq (flds : List (String × Json)) (k : String) (v : Option Bool)
    (h : lookupKey flds k = v.map Json.bool) : decodeField asBool flds k = some v := by
  cases v with
  | none => simp only [Option.map_none'] at h; simp [decodeField, h]
  | some b => simp only [Option.map_some'] at h; simp [decodeField, h, asBool]

theorem decode_marshal (g : IPGeolocation) :
    decodeIPGeolocation (marshalIPGeolocation g) = some g := by
  have hip : decodeField asStr (marshalFields g) "ip" = some g.IP :=
    decodeField_str_eq _ _ _
      (by simp [marshalFields, lookupKey_append, lookupKey_optField_same, lookupKey_optField_ne])
  have hcc : decodeField asStr (marshalFields g) "country_code" = some g.CountryCode :=
    decodeField_str_eq _ _ _
      (by simp [marshalFields, lookupKey_append, lookupKey_optField_same, lookupKey_optField_ne])
  have hcn : decodeField asStr (marshalFields g) "country_name" = some g.CountryName :=
    decodeField_str_eq _ _ _
      (by simp [marshalFields, lookupKey_append, lookupKey_optField_same, lookupKey_optField_ne])
  have hcity : decodeField asStr (marshalFields g) "city_name" = some g.CityName :=
    decodeField_str_eq _ _ _
      (by simp [marshalFields, lookupKey_append, lookupKey_optField_same, lookupKey_optField_ne])
  have hcoc : decodeField asStr (marshalFields g) "continent_code" = some g.ContinentCode :=
    decodeField_str_eq _ _ _
      (by simp [marshalFields, lookupKey_append, lookupKey_optField_same, lookupKey_optField_ne])
  have hcon : decodeField asStr (marshalFields g) "continent_name" = some g.ContinentName :=
    decodeField_str_eq _ _ _
      (by simp [marshalFields, lookupKey_append, lookupKey_optField_same, lookupKey_optField_ne])
  have hlat : decodeField asNum (marshalFields g) "latitude" = some g.Latitude :=
    decodeField_num_eq _ _ _
      (by simp [marshalFields, lookupKey_append, lookupKey_optField_same, lookupKey_optField_ne])
  have hlon : decodeField asNum (marshalFields g) "longitude" = some g.Longitude :=
    decodeField_num_eq _ _ _
      (by simp [marshalFields, lookupKey_append, lookupKey_optField_same, lookupKey_optField_ne])
  have htz : decodeField asStr (marshalFields g) "timezone" = some g.Timezone :=
    decodeField_str_eq _ _ _
      (by simp [marshalFields, lookupKey_append, lookupKey_optField_same, lookupKey_optField_ne])
  have hpc : decodeField asStr (marshalFields g) "postal_code" = some g.PostalCode :=
    decodeField_str_eq _ _ _
      (by simp [marshalFields, lookupKey_append, lookupKey_optField_same, lookupKey_optField_ne])
  have hacc : decodeField asInt (marshalFields g) "accuracy_radius" = some g.AccuracyRadius :=
    decodeField_int_eq _ _ _
      (by simp [marshalFields, lookupKey_append, lookupKey_optField_same, lookupKey_optField_ne])
  have heu : decodeField asBool (marshalFields g) "is_in_eu" = some g.IsInEu :=
    decodeField_bool_eq _ _ _
      (by simp [marshalFields, lookupKey_append, lookupKey_optField_same, lookupKey_optField_ne])
  have h1c : decodeField asStr (marshalFields g) "subdivision_1_code" = some g.Subdivision1Code :=
    decodeField_str_eq _ _ _
      (by simp [marshalFields, lookupKey_append, lookupKey_optField_same, lookupKey_optField_ne])
  have h1n : decodeField asStr (marshalFields g) "subdivision_1_name" = some g.Subdivision1Name :=
    decodeField_str_eq _ _ _
      (by simp [marshalFields, lookupKey_append, lookupKey_optField_same, lookupKey_optField_ne])
  have h2c : decodeField asStr (marshalFields g) "subdivision_2_code" = some g.Subdivision2Code :=
    decodeField_str_eq _ _ _
      (by simp [marshalFields, lookupKey_append, lookupKey_optField_same, lookupKey_optField_ne])
  have h2n : decodeField asStr (marshalFields g) "subdivision_2_name" = some g.Subdivision2Name :=
    decodeField_str_eq _ _ _
      (by simp [marshalFields, lookupKey_append, lookupKey_optField_same, lookupKey_optField_ne])
  simp [marshalIPGeolocation, decodeIPGeolocation, hip, hcc, hcn, hcity, hcoc, hcon,
    hlat, hlon, htz, hpc, hacc, heu, h1c, h1n, h2c, h2n]

theorem endsWithSlash_append (s : String) : endsWithSlash (s ++ "/") = true := by
  simp [endsWithSlash, String.data_append]

/-- C7: marshaling an IPGeolocation value to JSON and unmarshaling the
result back yields a value equal to the original in every field; a field
holding an explicit empty string is preserved (it is carried in the
marshalled object) and stays distinct from an absent field (whose key is
omitted), as witnessed on the second-subdivision code field. -/
theorem ipGeolocation_marshal_unmarshal_roundtrip (g : IPGeolocation) :
    decodeIPGeolocation (marshalIPGeolocation g) = some g
      ∧ marshalIPGeolocation { g with Subdivision2Code := some "" }
          ≠ marshalIPGeolocation { g with Subdivision2Code := none } := by
  refine ⟨decode_marshal g, fun h => ?_⟩
  have h2 : some ({ g with Subdivision2Code := some "" } : IPGeolocation)
      = some ({ g with Subdivision2Code := none } : IPGeolocation) := by
    rw [← decode_marshal, h, decode_marshal]
  have h3 := congrArg IPGeolocation.Subdivision2Code (Option.some.inj h2)
  simp at h3

/-- C10: a nil params pointer is accepted by the lookup operations: the
built request is identical to the one built from an empty params object,
it carries no query parameters, and the full operation behaves
identically to the empty-params call. -/
theorem nil_params_accepted (s ip : String) :
    NewLookupRequest s ip none = NewLookupRequest s ip (some {})
      ∧ (NewLookupRequest s ip none).queryParams = []
      ∧ NewLookupMyRequest s none = NewLookupMyRequest s (some {})
      ∧ (NewLookupMyRequest s none).queryParams = []
      ∧ (∀ c : Client, c.Lookup ip none = c.Lookup ip (some {})
          ∧ c.LookupMy none = c.LookupMy (some {})) := by
  refine ⟨rfl, rfl, rfl, rfl, fun c => ⟨?_, ?_⟩⟩
  · show c.doRequest (NewLookupRequest c.Server ip none)
      = c.doRequest (NewLookupRequest c.Server ip (some {}))
    rfl
  · rfl

/-- C4: for a structurally valid base URL with no trailing separator,
construction with no options succeeds and the effective base URL is the
given URL with exactly one separator appended; and every successfully
constructed client stores a base URL ending in the separator. -/
theorem newClient_appends_trailing_separator (s : String)
    (hv : isValidURL s = true) (hns : endsWithSlash s = false) :
    NewClient s [] = .ok { Server := s ++ "/", HTTPClient := some defaultTransport,
                           RequestEditors := [] }
      ∧ (∀ (s2 : String) (opts : List ClientOption) (c : Client),
          NewClient s2 opts = .ok c → endsWithSlash c.Server = true) := by
  constructor
  · simp [NewClient, hv, applyOpts, hns]
  · intro s2 opts c h
    unfold NewClient at h
    by_cases hv2 : isValidURL s2
    · simp only [hv2, if_true] at h
      cases hopts : applyOpts opts { Server := s2, HTTPClient := none, RequestEditors := [] } with
      | error e => rw [hopts] at h; cases h
      | ok c0 =>
          rw [hopts] at h
          by_cases hsl : endsWithSlash c0.Server = true
          · simp only [hsl, if_true] at h
            cases hcl : c0.HTTPClient <;> simp only [hcl] at h <;>
              cases h <;> simpa using hsl
          · simp only [hsl, if_false, Bool.not_eq_true] at h
            rw [if_neg (by simp [hsl])] at h
            cases hcl : c0.HTTPClient <;> simp only [hcl] at h <;>
              cases h <;> exact endsWithSlash_append _
    · simp [hv2] at h

/-- C9: configuration options are applied in order and a later option
overrides an earlier one: a base-URL override option makes the overriding
URL (separator enforced) the effective base URL rather than the
constructor's server argument, a second override wins over a first, and a
two-option list is the sequential composition of the two mutators. -/
theorem options_apply_in_order (s u1 u2 : String)
    (hs : isValidURL s = true) (h1 : isValidURL u1 = true)
    (h2 : isValidURL u2 = true) (hns : endsWithSlash u2 = false) :
    NewClient s [WithBaseURL u2]
        = .ok { Server := u2 ++ "/", HTTPClient := some defaultTransport,
                RequestEditors := [] }
      ∧ NewClient s [WithBaseURL u1, WithBaseURL u2]
          = .ok { Server := u2 ++ "/", HTTPClient := some defaultTransport,
                  RequestEditors := [] }
      ∧ (∀ (o1 o2 : ClientOption) (c0 : Client),
          applyOpts [o1, o2] c0 = (o1 c0).bind (fun c1 => o2 c1)) := by
  refine ⟨?_, ?_, ?_⟩
  · simp [NewClient, hs, applyOpts, WithBaseURL, h2, hns]
  · simp [NewClient, hs, applyOpts, WithBaseURL, h1, h2, hns]
  · intro o1 o2 c0
    cases ho1 : o1 c0 with
    | error e => simp [applyOpts, ho1, Except.bind]
    | ok c1 =>
        cases ho2 : o2 c1 with
        | error e => simp [applyOpts, ho1, ho2, Except.bind]
        | ok c2 => simp [applyOpts, ho1, ho2, Except.bind]

/-- C3: with two registered request-editor hooks, an operation runs both
hooks in registration order before dispatching through the transport (the
dispatched request is the second hook's output on the first hook's
output); if the first hook fails, the operation returns that error for
every second hook and every transport, so the second hook is never
consulted and no request reaches the transport. -/
theorem request_editors_run_in_order (s ip : String) (params : Option LookupParams)
    (e1 e2 : RequestEditorFn) (t : HttpRequestDoer) :
    (∀ r1 r2, e1 (NewLookupRequest s ip params) = .ok r1 → e2 r1 = .ok r2 →
        Client.Lookup { Server := s, HTTPClient := some t, RequestEditors := [e1, e2] }
          ip params = t r2)
      ∧ (∀ err, e1 (NewLookupRequest s ip params) = .error err →
          Client.Lookup { Server := s, HTTPClient := some t, RequestEditors := [e1, e2] }
            ip params = .error err) := by
  constructor
  · intro r1 r2 he1 he2
    simp [Client.Lookup, Client.doRequest, applyEditors, he1, he2]
  · intro err he1
    simp [Client.Lookup, Client.doRequest, applyEditors, he1]

theorem decodeGeoList_length (js : List Json) (gs : List IPGeolocation)
    (h : decodeGeoList js = some gs) : gs.length = js.length := by
  induction js generalizing gs with
  | nil => simp [decodeGeoList] at h; subst h; rfl
  | cons j rest ih =>
      unfold decodeGeoList at h
      cases hd : decodeIPGeolocation j <;> rw [hd] at h
      · cases h
      · cases hr : decodeGeoList rest <;> rw [hr] at h
        · cases h
        · cases h
          simp [ih _ hr]

theorem decodeGeoList_getElem (js : List Json) (gs : List IPGeolocation)
    (h : decodeGeoList js = some gs) (i : Nat) :
    gs[i]? = (js[i]?).bind decodeIPGeolocation := by
  induction js generalizing gs i with
  | nil => simp [decodeGeoList] at h; subst h; simp
  | cons j rest ih =>
      unfold decodeGeoList at h
      cases hd : decodeIPGeolocation j <;> rw [hd] at h
      · cases h
      · cases hr : decodeGeoList rest <;> rw [hr] at h
        · cases h
        · cases h
          cases i with
          | zero => simp [hd]
          | succ n => simp [ih _ hr]

/-- C6: a 200 lookup (or self-lookup) response whose body is the JSON
marshalling of a geolocation value parses with JSON200 set to exactly
that value — every scalar field equals the source JSON value — both at
the parsing layer and through the full typed operations. -/
theorem parse200_single_decodes_geolocation (g : IPGeolocation) (ct st s ip : String)
    (params : Option LookupParams) (myParams : Option LookupMyParams)
    (hct : isJsonContentType ct = true) :
    ParseLookupResponse { statusCode := 200, status := st, contentType := ct,
                          body := .ok (.json (marshalIPGeolocation g)) }
        = .ok { Body := .json (marshalIPGeolocation g), StatusCode := 200, Status := st,
                JSON200 := some g, JSON401 := none, JSON404 := none, JSON429 := none }
      ∧ Client.LookupWithResponse
          { Server := s,
            HTTPClient := some (fun _ =>
              .ok { statusCode := 200, status := st, contentType := ct,
                    body := .ok (.json (marshalIPGeolocation g)) }),
            RequestEditors := [] } ip params
        = .ok { Body := .json (marshalIPGeolocation g), StatusCode := 200, Status := st,
                JSON200 := some g, JSON401 := none, JSON404 := none, JSON429 := none }
      ∧ Client.LookupMyWithResponse
          { Server := s,
            HTTPClient := some (fun _ =>
              .ok { statusCode := 200, status := st, contentType := ct,
                    body := .ok (.json (marshalIPGeolocation g)) }),
            RequestEditors := [] } myParams
        = .ok { Body := .json (marshalIPGeolocation g), StatusCode := 200, Status := st,
                JSON200 := some g, JSON401 := none, JSON404 := none, JSON429 := none } := by
  have hp : ParseLookupResponse
      { statusCode := 200, status := st, contentType := ct,
        body := .ok (.json (marshalIPGeolocation g)) }
      = .ok { Body := .json (marshalIPGeolocation g), StatusCode := 200, Status := st,
              JSON200 := some g, JSON401 := none, JSON404 := none, JSON429 := none } := by
    simp [ParseLookupResponse, hct, RawBody.parseJson, decode_marshal]
  refine ⟨hp, ?_, ?_⟩
  · simp [Client.LookupWithResponse, Client.Lookup, Client.doRequest, applyEditors, hp]
  · simp [Client.LookupMyWithResponse, Client.LookupMy, Client.doRequest, applyEditors, hp]

/-- C6 witness: the 200-parse theorem applied to a geolocation whose IP
field is the test value 192.168.1.1. -/
theorem parse200_single_decodes_geolocation_witness :
    ParseLookupResponse
        { statusCode := 200, status := "200 OK", contentType := "application/json",
          body := .ok (.json (marshalIPGeolocation { IP := some "192.168.1.1" })) }
      = .ok { Body := .json (marshalIPGeolocation { IP := some "192.168.1.1" }),
              StatusCode := 200, Status := "200 OK",
              JSON200 := some { IP := some "192.168.1.1" },
              JSON401 := none, JSON404 := none, JSON429 := none } :=
  (parse200_single_decodes_geolocation { IP := some "192.168.1.1" } "application/json"
    "200 OK" "https://api.example.com/" "192.168.1.1" none none (by decide)).1

/-- C5: a 200 batch response whose data array decodes elementwise parses
with JSON200 carrying exactly the decoded sequence: its length equals the
number of entries in the body and its i-th element is the decoding of the
i-th body entry, so body order (assumed to match submission order) is
preserved. -/
theorem parse200_batch_preserves_length_and_order (js : List Json)
    (gs : List IPGeolocation) (ct st : String)
    (hct : isJsonContentType ct = true) (hdec : decodeGeoList js = some gs) :
    ParseBatchLookupResponse
        { statusCode := 200, status := st, contentType := ct,
          body := .ok (.json (.obj [("data", .arr js)])) }
        = .ok { Body := .json (.obj [("data", .arr js)]), StatusCode := 200, Status := st,
                JSON200 := some { Data := gs }, JSON401 := none, JSON422 := none,
                JSON429 := none, JSON500 := none }
      ∧ gs.length = js.length
      ∧ (∀ i : Nat, gs[i]? = (js[i]?).bind decodeIPGeolocation) := by
  refine ⟨?_, decodeGeoList_length js gs hdec, decodeGeoList_getElem js gs hdec⟩
  simp [ParseBatchLookupResponse, hct, RawBody.parseJson, decodeBatch, lookupKey,
    List.find?, hdec]

/-- C5 witness: the batch-parse theorem applied to a one-entry body. -/
theorem parse200_batch_preserves_length_and_order_witness :
    ParseBatchLookupResponse
        { statusCode := 200, status := "200 OK", contentType := "application/json",
          body := .ok (.json (.obj [("data",
            .arr [marshalIPGeolocation { IP := some "192.168.1.1" }])])) }
      = .ok { Body := .json (.obj [("data",
                .arr [marshalIPGeolocation { IP := some "192.168.1.1" }])]),
              StatusCode := 200, Status := "200 OK",
              JSON200 := some { Data := [{ IP := some "192.168.1.1" }] },
              JSON401 := none, JSON422 := none, JSON429 := none, JSON500 := none } :=
  (parse200_batch_preserves_length_and_order
    [marshalIPGeolocation { IP := some "192.168.1.1" }] [{ IP := some "192.168.1.1" }]
    "application/json" "200 OK" (by decide) rfl).1

/-- C1: for a JSON error body carrying a message, each status code an
operation special-cases (401, 404, 429 for the single lookup; 401, 429,
500 for the batch lookup) fills exactly its typed error field with that
message; a status code the operation does not special-case (500 on single
lookup, 404 on batch lookup) leaves every typed field unset while the
status code and the raw body bytes are preserved. -/
theorem error_status_typed_fields (msg ct st : String)
    (hct : isJsonContentType ct = true) :
    ParseLookupResponse { statusCode := 401, status := st, contentType := ct,
                                    body := .ok (errorBody msg) }
        = .ok { Body := errorBody msg, StatusCode := 401, Status := st, JSON200 := none,
                JSON401 := some { Message := msg }, JSON404 := none, JSON429 := none }
      ∧ ParseLookupResponse { statusCode := 404, status := st, contentType := ct,
                                    body := .ok (errorBody msg) }
          = .ok { Body := errorBody msg, StatusCode := 404, Status := st, JSON200 := none,
                  JSON401 := none, JSON404 := some { Message := msg }, JSON429 := none }
      ∧ ParseLookupResponse { statusCode := 429, status := st, contentType := ct,
                                    body := .ok (errorBody msg) }
          = .ok { Body := errorBody msg, StatusCode := 429, Status := st, JSON200 := none,
                  JSON401 := none, JSON404 := none, JSON429 := some { Message := msg } }
      ∧ ParseLookupResponse { statusCode := 500, status := st, contentType := ct,
                                    body := .ok (errorBody msg) }
          = .ok { Body := errorBody msg, StatusCode := 500, Status := st, JSON200 := none,
                  JSON401 := none, JSON404 := none, JSON429 := none }
      ∧ ParseBatchLookupResponse { statusCode := 401, status := st, contentType := ct,
                                    body := .ok (errorBody msg) }
          = .ok { Body := errorBody msg, StatusCode := 401, Status := st, JSON200 := none,
                  JSON401 := some { Message := msg }, JSON422 := none, JSON429 := none,
                  JSON500 := none }
      ∧ ParseBatchLookupResponse { statusCode := 429, status := st, contentType := ct,
                                    body := .ok (errorBody msg) }
          = .ok { Body := errorBody msg, StatusCode := 429, Status := st, JSON200 := none,
                  JSON401 := none, JSON422 := none, JSON429 := some { Message := msg },
                  JSON500 := none }
      ∧ ParseBatchLookupResponse { statusCode := 500, status := st, contentType := ct,
                                    body := .ok (errorBody msg) }
          = .ok { Body := errorBody msg, StatusCode := 500, Status := st, JSON200 := none,
                  JSON401 := none, JSON422 := none, JSON429 := none,
                  JSON500 := some { Message := msg } }
      ∧ ParseBatchLookupResponse { statusCode := 404, status := st, contentType := ct,
                                    body := .ok (errorBody msg) }
          = .ok { Body := errorBody msg, StatusCode := 404, Status := st, JSON200 := none,
                  JSON401 := none, JSON422 := none, JSON429 := none, JSON500 := none } := by
  refine ⟨?_, ?_, ?_, ?_, ?_, ?_, ?_, ?_⟩ <;>
    simp [ParseLookupResponse, ParseBatchLookupResponse, hct, RawBody.parseJson,
      decodeError, lookupKey, List.find?, errorBody]

/-- C1 witness: the error-field theorem applied to the message of the
401 test case. -/
theorem error_status_typed_fields_witness :
    ParseLookupResponse
        { statusCode := 401, status := "401 Unauthorized",
          contentType := "application/json", body := .ok (errorBody "Unauthorized") }
      = .ok { Body := errorBody "Unauthorized", StatusCode := 401,
              Status := "401 Unauthorized", JSON200 := none,
              JSON401 := some { Message := "Unauthorized" }, JSON404 := none,
              JSON429 := none } :=
  (error_status_typed_fields "Unauthorized" "application/json" "401 Unauthorized"
    (by decide)).1

/-- C4 witness: the construction theorem applied to the test server URL
of the repository's test-suite. -/
theorem newClient_appends_trailing_separator_witness :
    isValidURL "https://api.example.com" = true
      ∧ endsWithSlash "https://api.example.com" = false
      ∧ NewClient "https://api.example.com" []
          = .ok { Server := "https://api.example.com" ++ "/",
                  HTTPClient := some defaultTransport, RequestEditors := [] } :=
  ⟨by decide, by decide,
    (newClient_appends_trailing_separator "https://api.example.com"
      (by decide) (by decide)).1⟩

/-- C9 witness: the option-ordering theorem applied to the base-URL
override test's inputs. -/
theorem options_apply_in_order_witness :
    isValidURL "https://original.com" = true
      ∧ endsWithSlash "https://custom.api.com" = false
      ∧ NewClient "https://original.com" [WithBaseURL "https://custom.api.com"]
          = .ok { Server := "https://custom.api.com" ++ "/",
                  HTTPClient := some defaultTransport, RequestEditors := [] } :=
  ⟨by decide, by decide,
    (options_apply_in_order "https://original.com" "https://custom.api.com"
      "https://custom.api.com" (by decide) (by decide) (by decide) (by decide)).1⟩

/-- C3 witness: the hook-ordering theorem applied to a header-adding
first hook, an identity second hook and a canned transport. -/
theorem request_editors_run_in_order_witness :
    Client.Lookup { Server := "https://api.example.com/", HTTPClient := some constTransport,
                    RequestEditors := [addHeaderEditor, idEditor] } "192.168.1.1" none
      = .ok sampleResponse :=
  (request_editors_run_in_order "https://api.example.com/" "192.168.1.1" none
      addHeaderEditor idEditor constTransport).1
    { method := "GET", url := "https://api.example.com/192.168.1.1",
      queryParams := [], headers := [("Custom-Header", "test-value")], body := none }
    { method := "GET", url := "https://api.example.com/192.168.1.1",
      queryParams := [], headers := [("Custom-Header", "test-value")], body := none }
    rfl rfl

/-- C8: in every parsed typed response, at most one of the
status-code-keyed decoded-body fields is set, and a set field is always
the one keyed by the response's actual status code — for the single
lookup (also used by the self lookup) and for the batch lookup. -/
theorem typed_fields_mutually_exclusive :
    (∀ (rsp : HttpResponse) (r : LookupResponse), ParseLookupResponse rsp = .ok r →
        r.setCount ≤ 1
          ∧ (r.JSON200.isSome = true → rsp.statusCode = 200)
          ∧ (r.JSON401.isSome = true → rsp.statusCode = 401)
          ∧ (r.JSON404.isSome = true → rsp.statusCode = 404)
          ∧ (r.JSON429.isSome = true → rsp.statusCode = 429))
      ∧ (∀ (rsp : HttpResponse) (r : BatchLookupResponse),
          ParseBatchLookupResponse rsp = .ok r →
            r.setCount ≤ 1
              ∧ (r.JSON200.isSome = true → rsp.statusCode = 200)
              ∧ (r.JSON401.isSome = true → rsp.statusCode = 401)
              ∧ (r.JSON422.isSome = true → rsp.statusCode = 422)
              ∧ (r.JSON429.isSome = true → rsp.statusCode = 429)
              ∧ (r.JSON500.isSome = true → rsp.statusCode = 500)) := by
  constructor
  · intro rsp r h
    unfold ParseLookupResponse at h
    repeat' split at h
    all_goals cases h
    all_goals simp_all [LookupResponse.setCount, Option.elim]
  · intro rsp r h
    unfold ParseBatchLookupResponse at h
    repeat' split at h
    all_goals cases h
    all_goals simp_all [BatchLookupResponse.setCount, Option.elim]

/-- C8 witness: the exclusivity theorem applied to a parsed 401
response. -/
theorem typed_fields_mutually_exclusive_witness :
    ({ Body := errorBody "Unauthorized", StatusCode := 401, Status := "401",
       JSON200 := none, JSON401 := some { Message := "Unauthorized" },
       JSON404 := none, JSON429 := none } : LookupResponse).setCount ≤ 1 :=
  (typed_fields_mutually_exclusive.1
    { statusCode := 401, status := "401", contentType := "application/json",
      body := .ok (errorBody "Unauthorized") }
    { Body := errorBody "Unauthorized", StatusCode := 401, Status := "401",
      JSON200 := none, JSON401 := some { Message := "Unauthorized" },
      JSON404 := none, JSON429 := none } rfl).1

/-- C2: the parsing layer fails exactly when reading the body fails or a
JSON decode it attempts fails — a body-read error propagates unchanged;
for a readable body the result is an error precisely when the operation's
decode-failure condition holds (so every well-formed response of any
status code, 401/404/429/500 included, parses without error); and a
transport-layer error propagates unchanged through the typed
operations. -/
theorem parse_errors_iff_decode_fails :
    (∀ (rsp : HttpResponse) (e : String), rsp.body = .error e →
        ParseLookupResponse rsp = .error e ∧ ParseBatchLookupResponse rsp = .error e)
      ∧ (∀ (st : Nat) (stat ct : String) (b : RawBody),
          (((ParseLookupResponse
                { statusCode := st, status := stat, contentType := ct,
                  body := .ok b }).isOk = false)
              ↔ lookupDecodeFails st ct b = true)
            ∧ (((ParseBatchLookupResponse
                  { statusCode := st, status := stat, contentType := ct,
                    body := .ok b }).isOk = false)
                ↔ batchDecodeFails st ct b = true))
      ∧ (∀ (c : Client) (ip : String) (params : Option LookupParams) (e : String),
          c.Lookup ip params = .error e → c.LookupWithResponse ip params = .error e)
      ∧ (∀ (c : Client) (params : Option BatchLookupParams)
          (body : BatchLookupJSONRequestBody) (e : String),
          c.BatchLookup params body = .error e →
            c.BatchLookupWithResponse params body = .error e) := by
  refine ⟨?_, ?_, ?_, ?_⟩
  · intro rsp e he
    constructor
    · simp [ParseLookupResponse, he]
    · simp [ParseBatchLookupResponse, he]
  · intro st stat ct b
    by_cases hj : isJsonContentType ct = true
    · constructor
      · by_cases h200 : st = 200
        · subst h200
          cases hd : RawBody.parseJson b >>= decodeIPGeolocation <;>
            simp [ParseLookupResponse, lookupDecodeFails, hj, hd, Except.isOk, Except.toBool]
        · have h200' : (st == 200) = false := by simpa using h200
          by_cases h401 : st = 401
          · subst h401
            cases hd : RawBody.parseJson b >>= decodeError <;>
              simp [ParseLookupResponse, lookupDecodeFails, hj, hd, Except.isOk, Except.toBool]
          · have h401' : (st == 401) = false := by simpa using h401
            by_cases h404 : st = 404
            · subst h404
              cases hd : RawBody.parseJson b >>= decodeError <;>
                simp [ParseLookupResponse, lookupDecodeFails, hj, hd, Except.isOk, Except.toBool]
            · have h404' : (st == 404) = false := by simpa using h404
              by_cases h429 : st = 429
              · subst h429
                cases hd : RawBody.parseJson b >>= decodeError <;>
                  simp [ParseLookupResponse, lookupDecodeFails, hj, hd, Except.isOk, Except.toBool]
              · have h429' : (st == 429) = false := by simpa using h429
                simp [ParseLookupResponse, lookupDecodeFails, Except.isOk, Except.toBool, hj, h200', h401',
                  h404', h429']
      · by_cases h200 : st = 200
        · subst h200
          cases hd : RawBody.parseJson b >>= decodeBatch <;>
            simp [ParseBatchLookupResponse, batchDecodeFails, hj, hd, Except.isOk, Except.toBool]
        · have h200' : (st == 200) = false := by simpa using h200
          by_cases h401 : st = 401
          · subst h401
            cases hd : RawBody.parseJson b >>= decodeError <;>
              simp [ParseBatchLookupResponse, batchDecodeFails, hj, hd, Except.isOk, Except.toBool]
          · have h401' : (st == 401) = false := by simpa using h401
            by_cases h422 : st = 422
            · subst h422
              cases hd : RawBody.parseJson b >>= decodeError <;>
                simp [ParseBatchLookupResponse, batchDecodeFails, hj, hd, Except.isOk, Except.toBool]
            · have h422' : (st == 422) = false := by simpa using h422
              by_cases h429 : st = 429
              · subst h429
                cases hd : RawBody.parseJson b >>= decodeError <;>
                  simp [ParseBatchLookupResponse, batchDecodeFails, hj, hd, Except.isOk, Except.toBool]
              · have h429' : (st == 429) = false := by simpa using h429
                by_cases h500 : st = 500
                · subst h500
                  cases hd : RawBody.parseJson b >>= decodeError <;>
                    simp [ParseBatchLookupResponse, batchDecodeFails, hj, hd, Except.isOk, Except.toBool]
                · have h500' : (st == 500) = false := by simpa using h500
                  simp [ParseBatchLookupResponse, batchDecodeFails, Except.isOk, Except.toBool, hj, h200',
                    h401', h422', h429', h500']
    · have hj' : isJsonContentType ct = false := by simpa using hj
      constructor
      · simp [ParseLookupResponse, lookupDecodeFails, hj', Except.isOk, Except.toBool]
      · simp [ParseBatchLookupResponse, batchDecodeFails, hj', Except.isOk, Except.toBool]
  · intro c ip params e h
    simp [Client.LookupWithResponse, h]
  · intro c params body e h
    simp [Client.BatchLookupWithResponse, h]

/-- C2 witness: a body-read failure propagates unchanged out of the
parsing layer. -/
theorem parse_errors_iff_decode_fails_witness :
    ParseLookupResponse
        { statusCode := 200, status := "200 OK", contentType := "application/json",
          body := .error "read failure" }
      = .error "read failure" :=
  (parse_errors_iff_decode_fails.1
    { statusCode := 200, status := "200 OK", contentType := "application/json",
      body := .error "read failure" } "read failure" rfl).1

end IpSonar
